import Mathlib

/-!
Shallow embedding of the CBM 1520 pen-plotter driver (`src/main.rs`).

The driver consumes a stream of g-code tokens produced by an external SVG
converter, accumulates X/Y coordinates and tool-state changes into `Commands`
values, and transmits each ready command over the CBM serial bus through the
opencbm primitives.  The opencbm layer is an external collaborator; here its
calls are recorded as an explicit trace of `BusOp` events, and the integer
return codes the Rust code inspects are supplied as parameters of the model.
Rust panics are modelled as `Except`-style error results carrying the panic
message; the `Drop` implementation (which Rust runs both on normal scope exit
and during a panic unwind) is modelled by appending the close event on both
the success and the error path of `plot`.
-/

/-- `PLOTTER_DEVICE` constant from the source. -/
def PLOTTER_DEVICE : Nat := 6

/-- `PLOTTER_SA_XY` constant from the source. -/
def PLOTTER_SA_XY : Nat := 1

/-- `PLOTTER_SA_RESET` constant from the source. -/
def PLOTTER_SA_RESET : Nat := 7

/-- `struct MoveOptions { x: Option<u32>, y: Option<u32> }`. -/
structure MoveOptions where
  x : Option Nat
  y : Option Nat
deriving DecidableEq, Repr

/-- `enum Commands { Move(MoveOptions), Draw(MoveOptions), Reset }`. -/
inductive Commands where
  | Move (opts : MoveOptions)
  | Draw (opts : MoveOptions)
  | Reset
deriving DecidableEq, Repr

/-- `Commands::new_move`. -/
def Commands.new_move : Commands := .Move ⟨none, none⟩

/-- `Commands::new_draw`. -/
def Commands.new_draw : Commands := .Draw ⟨none, none⟩

/-- `Commands::is_ready`. -/
def Commands.is_ready : Commands → Bool
  | .Move opts => opts.x.isSome && opts.y.isSome
  | .Draw opts => opts.x.isSome && opts.y.isSome
  | _ => true

/-- `Commands::set_x` (mutation modelled as returning the updated value). -/
def Commands.set_x : Commands → Nat → Commands
  | .Move opts, x => .Move { opts with x := some x }
  | .Draw opts, x => .Draw { opts with x := some x }
  | c, _ => c

/-- `Commands::set_y`. -/
def Commands.set_y : Commands → Nat → Commands
  | .Move opts, y => .Move { opts with y := some y }
  | .Draw opts, y => .Draw { opts with y := some y }
  | c, _ => c

/-- `g_code::emit::Value`, restricted to the variants the driver inspects;
every finite `f64` is an exact rational, so `Float` carries a `ℚ`. -/
inductive GValue where
  | Float (q : ℚ)
  | Integer (z : ℤ)
  | Str (s : String)
deriving DecidableEq, Repr

/-- `g_code::emit::Token`: a field with a letter tag and a value, or a
non-field token (comment etc.), which the loop's `if let Token::Field`
skips over. -/
inductive Token where
  | Field (letters : String) (value : GValue)
  | Comment (text : String)
deriving DecidableEq, Repr

/-- The letter tag of a token, when it is a field. -/
def Token.tagOf : Token → Option String
  | .Field letters _ => some letters
  | .Comment _ => none

/-- Rust `value as u32` on an `f64`: truncation toward zero, saturating at
`0` below and `u32::MAX` above.  For a nonnegative rational `q.num.toNat /
q.den` is exactly truncation toward zero; a negative numerator saturates
to `0` via `Int.toNat`. -/
def rustAsU32 (q : ℚ) : Nat := min (q.num.toNat / q.den) (2 ^ 32 - 1)

/-- One opencbm bus-transport call, as recorded in the trace. -/
inductive BusOp where
  | driverOpen
  | openChannel (addr sa : Nat)
  | listen (addr sa : Nat)
  | rawWrite (data : List Nat)
  | unlisten
  | closeChannel (addr sa : Nat)
  | driverClose
deriving DecidableEq, Repr

/-- Bytes of an ASCII string. -/
def strBytes (s : String) : List Nat := s.toList.map Char.toNat

/-- Payload built for a ready Move: `CString::new(format!("M,{},{}\n", x, y))
.into_bytes_with_nul()`. -/
def moveBytes (x y : Nat) : List Nat :=
  strBytes ("M," ++ toString x ++ "," ++ toString y ++ "\n") ++ [0]

/-- Payload built for a ready Draw: `CString::new(format!("D,{},{}", x, y))
.into_bytes_with_nul()`. -/
def drawBytes (x y : Nat) : List Nat :=
  strBytes ("D," ++ toString x ++ "," ++ toString y) ++ [0]

/-- `Plotter::write(addr, sec_addr, data)`.  `openRet` is the code returned
by `cbm_open`; a non-zero code panics before any listen or write.
`writeRet` is the code returned by `cbm_raw_write`; the source discards it,
so it does not occur on the right-hand side.  Returns the trace of bus
calls performed together with the panic message, if any. -/
def Plotter.write (openRet writeRet : ℤ) (addr sa : Nat) (data : List Nat) :
    List BusOp × Option String :=
  if openRet ≠ 0 then
    ([.openChannel addr sa],
     some ("failed to open address " ++ toString addr ++ ":" ++ toString sa))
  else
    ([.openChannel addr sa, .listen addr sa, .rawWrite data, .unlisten,
      .closeChannel addr sa], none)

/-- The transaction performed for a ready command (the `match command` block
inside the token loop): Reset does listen/write/unlisten on sub-address 7
with no channel open/close; Move and Draw serialize their coordinates and go
through `Plotter::write` on sub-address 1.  An unready Move/Draw would hit
`opts.x.unwrap()` on `None`, a panic, modelled by the error result. -/
def transact (openRet writeRet : ℤ) : Commands → List BusOp × Option String
  | .Reset =>
      ([.listen PLOTTER_DEVICE PLOTTER_SA_RESET, .rawWrite [], .unlisten], none)
  | .Move ⟨some x, some y⟩ =>
      Plotter.write openRet writeRet PLOTTER_DEVICE PLOTTER_SA_XY (moveBytes x y)
  | .Draw ⟨some x, some y⟩ =>
      Plotter.write openRet writeRet PLOTTER_DEVICE PLOTTER_SA_XY (drawBytes x y)
  | _ => ([], some "called `Option::unwrap()` on a `None` value")

/-- The per-token update of the accumulator (the `match letter_type` block):
an `X`/`Y` field with a float value assigns the truncated coordinate, a `Z`
field with integer 0 installs a fresh Draw, 1 a fresh Move, any other
integer panics; every other token leaves the accumulator unchanged. -/
def stepCommand (c : Commands) : Token → Except String Commands
  | .Field letters value =>
    if letters = "X" then
      match value with
      | .Float q => .ok (c.set_x (rustAsU32 q))
      | _ => .ok c
    else if letters = "Y" then
      match value with
      | .Float q => .ok (c.set_y (rustAsU32 q))
      | _ => .ok c
    else if letters = "Z" then
      match value with
      | .Integer z =>
        if z = 0 then .ok Commands.new_draw
        else if z = 1 then .ok Commands.new_move
        else .error "unrecognised tool command!"
      | _ => .ok c
    else .ok c
  | .Comment _ => .ok c

/-- One iteration of the token loop: update the accumulator, then — for every
token, whether or not it changed anything — check `is_ready()` and transact
when ready.  State is the accumulator plus the bus trace so far; an error
carries the trace up to the panic. -/
def processToken (openRet writeRet : ℤ) (st : Commands × List BusOp)
    (t : Token) : Except (List BusOp × String) (Commands × List BusOp) :=
  match stepCommand st.1 t with
  | .error msg => .error (st.2, msg)
  | .ok c =>
    if c.is_ready then
      match transact openRet writeRet c with
      | (ops, none) => .ok (c, st.2 ++ ops)
      | (ops, some msg) => .error (st.2 ++ ops, msg)
    else .ok (c, st.2)

/-- The token loop of `Plotter::plot`, started from
`let mut command = Commands::new_move()`. -/
def plotRun (openRet writeRet : ℤ) (toks : List Token) :
    Except (List BusOp × String) (Commands × List BusOp) :=
  toks.foldlM (processToken openRet writeRet) (Commands.new_move, [])

/-- Environment of one program run: the return codes the opencbm calls
produce, whether `read_to_string` and `Document::parse` succeed, the token
stream `svg2program` yields, and the command-line height/width. -/
structure Env where
  adapterOpenRet : ℤ
  fileReadOk : Bool
  parseOk : Bool
  chanOpenRet : ℤ
  writeRet : ℤ
  tokens : List Token
  height : Nat
  width : Nat

/-- Body of `Plotter::plot` after construction: read the file (panics with
`expect("failed to read file")` on failure), parse it (panics with
`expect("failed to parse file")`), then run the token loop. -/
def plotBody (e : Env) : List BusOp × Option String :=
  if e.fileReadOk = false then ([], some "failed to read file")
  else if e.parseOk = false then ([], some "failed to parse file")
  else
    match plotRun e.chanOpenRet e.writeRet e.tokens with
    | .ok (_, tr) => (tr, none)
    | .error (tr, msg) => (tr, some msg)

/-- `fn main`: validate the canvas bounds (panicking before any adapter
interaction), construct the `Plotter` (opening the adapter handle; a
non-zero code panics with the code in the message, before the `Plotter`
exists, so no drop runs), then `plot()`.  Once construction succeeded the
`Drop` impl runs `cbm_driver_close` exactly when the `Plotter` goes out of
scope — on normal return and on panic unwind alike — so the close event is
appended on both paths. -/
def runMain (e : Env) : List BusOp × Option String :=
  if e.height > 997 ∨ e.width > 447 then ([], some "Invalid width/height")
  else if e.adapterOpenRet ≠ 0 then
    ([.driverOpen],
     some ("failed to open adapter with error: " ++ toString e.adapterOpenRet))
  else
    (.driverOpen :: ((plotBody e).1 ++ [.driverClose]), (plotBody e).2)

/-- The bus trace of a (possibly aborted) token loop run. -/
def traceOf : Except (List BusOp × String) (Commands × List BusOp) → List BusOp
  | .ok (_, tr) => tr
  | .error (tr, _) => tr

/-- Recognizes the `cbm_raw_write` events of a trace; each Move/Draw/Reset
transaction performs exactly one of them. -/
def isWriteOp : BusOp → Bool
  | .rawWrite _ => true
  | _ => false

/-- A token the `match letter_type` block ignores: not an `X`, `Y` or `Z`
field (non-field tokens have no tag at all). -/
def ignoredTag (t : Token) : Prop :=
  t.tagOf ≠ some "X" ∧ t.tagOf ≠ some "Y" ∧ t.tagOf ≠ some "Z"

/-- An `X` coordinate token (an `X` field carrying a float). -/
def isXTok (t : Token) : Prop := ∃ q, t = .Field "X" (.Float q)

/-- A `Y` coordinate token (a `Y` field carrying a float). -/
def isYTok (t : Token) : Prop := ∃ q, t = .Field "Y" (.Float q)

/-- A coordinate token: an `X` or `Y` field carrying a float. -/
def coordTok (t : Token) : Prop := isXTok t ∨ isYTok t

/-- Total restriction of `stepCommand` (coordinate tokens never panic, so on
them this is exactly the loop's accumulator update). -/
def stepCommandD (c : Commands) (t : Token) : Commands :=
  match stepCommand c t with
  | .ok c2 => c2
  | .error _ => c

/-- A Move (`b = true`) or Draw (`b = false`) accumulator with the given
coordinate fields; used to treat the two symmetric variants uniformly. -/
def mkMD (b : Bool) (ox oy : Option Nat) : Commands :=
  if b then .Move ⟨ox, oy⟩ else .Draw ⟨ox, oy⟩

/-- Invariant satisfied by every bus call the token loop performs: it never
touches the adapter handle (no driver open/close) and every listener
addressing uses the XY sub-address, never the reset sub-address. -/
def busInv (op : BusOp) : Prop :=
  op ≠ .driverClose ∧ op ≠ .driverOpen ∧
    ∀ a sa, op = .listen a sa → sa = PLOTTER_SA_XY

/-- The polyline example stream from the specification:
`[ToolState(1), X(1.0), Y(1.0), X(2.0), Y(2.0)]`. -/
def c1toks : List Token :=
  [.Field "Z" (.Integer 1), .Field "X" (.Float 1), .Field "Y" (.Float 1),
   .Field "X" (.Float 2), .Field "Y" (.Float 2)]

/-- A stream completing one Move: `[ToolState(1), X(1.0), Y(1.0)]`. -/
def c8toks3 : List Token :=
  [.Field "Z" (.Integer 1), .Field "X" (.Float 1), .Field "Y" (.Float 1)]

/-- The same stream followed by one ignored-tag token (an `F` feedrate
field). -/
def c8toks4 : List Token := c8toks3 ++ [.Field "F" (.Float 55)]

/-- The rational `57/10`, i.e. the value `5.7` of the specification's Draw
example, given in normal form so that the kernel can evaluate on it
(`q5_7_eq` below relates it to the division form). -/
def q5_7 : ℚ := ⟨57, 10, by decide, by decide⟩

/-- The rational `32/10 = 16/5`, i.e. the value `3.2` of the
specification's Draw example, in normal form. -/
def q3_2 : ℚ := ⟨16, 5, by decide, by decide⟩

/-- `q5_7` is `5.7`. -/
theorem q5_7_eq : q5_7 = 57 / 10 := by
  rw [q5_7, Rat.mk'_eq_divInt, Rat.divInt_eq_div]; norm_num

/-- `q3_2` is `3.2`. -/
theorem q3_2_eq : q3_2 = 32 / 10 := by
  rw [q3_2, Rat.mk'_eq_divInt, Rat.divInt_eq_div]; norm_num

/-- Claim C1, counterexample: on the stream
`[ToolState(1), X(1.0), Y(1.0), X(2.0), Y(2.0)]` the number of transacted
commands (raw-write events) is not two. -/
theorem c1_two_transactions_refuted :
    (traceOf (plotRun 0 0 c1toks)).countP isWriteOp ≠ 2 := by decide

/-- Claim C1 (amended): on
`[ToolState(1), X(1.0), Y(1.0), X(2.0), Y(2.0)]` exactly three Move
transactions occur, in order `(1,1)`, `(2,1)`, `(2,2)`: coordinates persist
in the accumulator until overwritten, and since the accumulator is never
cleared after a transaction and readiness is re-checked after every token,
each coordinate token after the first completed point re-transacts the
current accumulator (producing the intermediate `(2,1)` point). -/
theorem c1_three_move_transactions :
    plotRun 0 0 c1toks = .ok (Commands.Move ⟨some 2, some 2⟩,
      [.openChannel 6 1, .listen 6 1, .rawWrite (moveBytes 1 1), .unlisten,
       .closeChannel 6 1,
       .openChannel 6 1, .listen 6 1, .rawWrite (moveBytes 2 1), .unlisten,
       .closeChannel 6 1,
       .openChannel 6 1, .listen 6 1, .rawWrite (moveBytes 2 2), .unlisten,
       .closeChannel 6 1]) := by rfl

/-- Claim C2: `[ToolState(1), X(10.0), Y(20.0)]` produces one Move
transaction to (device 6, sub-address 1) whose payload is the ASCII bytes
of `M,10,20` + newline + terminating null, and `[ToolState(0), X(5.7),
Y(3.2)]` produces one Draw transaction whose payload is `D,5,3` + null:
coordinates are truncated, not rounded, and rendered in decimal without
leading zeros or padding. -/
theorem c2_move_draw_payloads :
    plotRun 0 0
        [.Field "Z" (.Integer 1), .Field "X" (.Float 10),
         .Field "Y" (.Float 20)] =
      .ok (Commands.Move ⟨some 10, some 20⟩,
        [.openChannel PLOTTER_DEVICE PLOTTER_SA_XY,
         .listen PLOTTER_DEVICE PLOTTER_SA_XY,
         .rawWrite [77, 44, 49, 48, 44, 50, 48, 10, 0], .unlisten,
         .closeChannel PLOTTER_DEVICE PLOTTER_SA_XY]) ∧
    plotRun 0 0
        [.Field "Z" (.Integer 0), .Field "X" (.Float q5_7),
         .Field "Y" (.Float q3_2)] =
      .ok (Commands.Draw ⟨some 5, some 3⟩,
        [.openChannel PLOTTER_DEVICE PLOTTER_SA_XY,
         .listen PLOTTER_DEVICE PLOTTER_SA_XY,
         .rawWrite [68, 44, 53, 44, 51, 0], .unlisten,
         .closeChannel PLOTTER_DEVICE PLOTTER_SA_XY]) := by
  exact ⟨by rfl, by rfl⟩

/-- Claim C3: for every transacted Move or Draw the driver performs exactly
open-channel, listen, raw-write, unlisten, close-channel in that order; a
non-zero open-channel code is a fatal panic naming the address pair, with
no listen or write performed; and the raw-write return code is never
inspected (the result is independent of it). -/
theorem c3_write_protocol (openRet w w2 : ℤ) (addr sa : Nat)
    (data : List Nat) (x y : Nat) :
    (openRet = 0 → Plotter.write openRet w addr sa data =
      ([.openChannel addr sa, .listen addr sa, .rawWrite data, .unlisten,
        .closeChannel addr sa], none)) ∧
    (openRet ≠ 0 → Plotter.write openRet w addr sa data =
      ([.openChannel addr sa],
       some ("failed to open address " ++ toString addr ++ ":" ++
         toString sa))) ∧
    Plotter.write openRet w addr sa data =
      Plotter.write openRet w2 addr sa data ∧
    transact openRet w (.Move ⟨some x, some y⟩) =
      Plotter.write openRet w PLOTTER_DEVICE PLOTTER_SA_XY (moveBytes x y) ∧
    transact openRet w (.Draw ⟨some x, some y⟩) =
      Plotter.write openRet w PLOTTER_DEVICE PLOTTER_SA_XY (drawBytes x y) := by
  refine ⟨?_, ?_, ?_, rfl, rfl⟩
  · intro h
    simp [Plotter.write, h]
  · intro h
    simp [Plotter.write, h]
  · simp [Plotter.write]

/-- Witness for C3 at concrete inputs: a successful transaction and a
failed channel open. -/
theorem c3_write_protocol_witness :
    Plotter.write 0 0 6 1 [77] =
      ([.openChannel 6 1, .listen 6 1, .rawWrite [77], .unlisten,
        .closeChannel 6 1], none) ∧
    Plotter.write 1 0 6 1 [77] =
      ([.openChannel 6 1], some "failed to open address 6:1") :=
  ⟨(c3_write_protocol 0 0 0 6 1 [77] 0 0).1 rfl,
   (c3_write_protocol 1 0 0 6 1 [77] 0 0).2.1 (by decide)⟩

/-- Claim C5: whatever the current accumulator, a tool-state (`Z`) token of
integer value 0 installs a fresh Draw with no coordinates set, value 1 a
fresh Move with no coordinates set (neither transacts, since a fresh
accumulator is unready, so partial state is discarded), and every other
integer value aborts the run with the fatal unrecognised-tool-command
panic. -/
theorem c5_toolstate_semantics (o w : ℤ) (c : Commands) (tr : List BusOp)
    (z : ℤ) :
    stepCommand c (.Field "Z" (.Integer 0)) = .ok Commands.new_draw ∧
    stepCommand c (.Field "Z" (.Integer 1)) = .ok Commands.new_move ∧
    Commands.new_draw = .Draw ⟨none, none⟩ ∧
    Commands.new_move = .Move ⟨none, none⟩ ∧
    processToken o w (c, tr) (.Field "Z" (.Integer 0)) =
      .ok (Commands.new_draw, tr) ∧
    processToken o w (c, tr) (.Field "Z" (.Integer 1)) =
      .ok (Commands.new_move, tr) ∧
    (z ≠ 0 → z ≠ 1 → processToken o w (c, tr) (.Field "Z" (.Integer z)) =
      .error (tr, "unrecognised tool command!")) := by
  refine ⟨rfl, rfl, rfl, rfl, rfl, rfl, ?_⟩
  intro h0 h1
  simp [processToken, stepCommand, h0, h1]

/-- Witness for C5: tool-state value 5 aborts with the fatal panic. -/
theorem c5_toolstate_semantics_witness :
    processToken 0 0 (Commands.new_move, []) (.Field "Z" (.Integer 5)) =
      .error ([], "unrecognised tool command!") :=
  (c5_toolstate_semantics 0 0 Commands.new_move [] 5).2.2.2.2.2.2
    (by decide) (by decide)

/-- Claim C9: a canvas with height above 997 or width above 447 is rejected
by `main` before anything else happens: the bus trace is empty (in
particular no adapter open) and the run aborts with the invalid-size
panic. -/
theorem c9_canvas_bounds_rejected (e : Env)
    (h : e.height > 997 ∨ e.width > 447) :
    runMain e = ([], some "Invalid width/height") := by
  unfold runMain
  rw [if_pos h]

/-- Witness for C9 at height 998 and at width 448. -/
theorem c9_canvas_bounds_rejected_witness :
    runMain ⟨0, true, true, 0, 0, [], 998, 100⟩ =
      ([], some "Invalid width/height") ∧
    runMain ⟨0, true, true, 0, 0, [], 100, 448⟩ =
      ([], some "Invalid width/height") :=
  ⟨c9_canvas_bounds_rejected _ (Or.inl (by decide)),
   c9_canvas_bounds_rejected _ (Or.inr (by decide))⟩

/-- Claim C7, counterexample: in a run whose file read fails (all other
inputs benign), the process aborts with the read failure, yet a Bus
Transport operation — the adapter open performed by the `Plotter`
constructor, which `main` runs before `plot()` ever touches the file — is
already in the trace. -/
theorem c7_adapter_open_precedes_read_failure :
    (runMain ⟨0, false, true, 0, 0, [], 100, 100⟩).2 =
      some "failed to read file" ∧
    BusOp.driverOpen ∈ (runMain ⟨0, false, true, 0, 0, [], 100, 100⟩).1 := by
  constructor
  · rfl
  · show BusOp.driverOpen ∈ [BusOp.driverOpen, BusOp.driverClose]
    exact List.mem_cons_self _ _

/-- Claim C7 (amended): a file-read or document-parse failure is fatal and
happens before any device-level bus operation — the trace of such a run is
exactly adapter-open followed by the adapter-close performed by the
unwind-time drop, with no channel open, listen, write, unlisten or channel
close; the adapter itself, however, has already been opened by the
`Plotter` constructor before the file is touched. -/
theorem c7_read_parse_failure_no_channel_ops (e : Env)
    (hh : e.height ≤ 997) (hw : e.width ≤ 447) (ha : e.adapterOpenRet = 0)
    (hf : e.fileReadOk = false ∨ e.parseOk = false) :
    ((runMain e).2 = some "failed to read file" ∨
      (runMain e).2 = some "failed to parse file") ∧
    (runMain e).1 = [.driverOpen, .driverClose] := by
  have hb : ¬ (e.height > 997 ∨ e.width > 447) := by omega
  unfold runMain
  rw [if_neg hb, if_neg (by simp [ha])]
  rcases hf with hf | hf
  · unfold plotBody
    rw [if_pos hf]
    exact ⟨Or.inl rfl, rfl⟩
  · unfold plotBody
    cases hr : e.fileReadOk
    · rw [if_pos rfl]
      exact ⟨Or.inl rfl, rfl⟩
    · rw [if_neg (by simp), if_pos hf]
      exact ⟨Or.inr rfl, rfl⟩

/-- Witness for C7 (amended) at a concrete environment with a failing file
read. -/
theorem c7_read_parse_failure_no_channel_ops_witness :
    ((runMain ⟨0, false, true, 0, 0, [], 200, 200⟩).2 =
        some "failed to read file" ∨
      (runMain ⟨0, false, true, 0, 0, [], 200, 200⟩).2 =
        some "failed to parse file") ∧
    (runMain ⟨0, false, true, 0, 0, [], 200, 200⟩).1 =
      [.driverOpen, .driverClose] :=
  c7_read_parse_failure_no_channel_ops _ (by decide) (by decide) rfl
    (Or.inl rfl)

/-- Claim C8, counterexample: appending one ignored-tag token (an `F`
field) to a stream that has just completed a Move changes the sequence of
bus transactions — the ready accumulator is re-transacted, so consuming
the ignored token is not transaction-free. -/
theorem c8_ignored_token_retransacts :
    traceOf (plotRun 0 0 c8toks4) ≠ traceOf (plotRun 0 0 c8toks3) := by
  decide

/-- Claim C8 (amended): a token whose tag is not `X`, `Y` or `Z` never
changes the accumulator; if the accumulator is unready it causes no bus
operation at all, but if the accumulator is ready (as it stays after a
completed command, since the accumulator is never cleared) consuming the
ignored token performs one additional transaction of the unchanged
accumulator. -/
theorem c8_ignored_token_semantics (o w : ℤ) (c : Commands)
    (tr : List BusOp) (t : Token) (h : ignoredTag t) :
    stepCommand c t = .ok c ∧
    (c.is_ready = false → processToken o w (c, tr) t = .ok (c, tr)) ∧
    (c.is_ready = true → processToken o w (c, tr) t =
      (match transact o w c with
       | (ops, none) => .ok (c, tr ++ ops)
       | (ops, some msg) => .error (tr ++ ops, msg))) := by
  obtain ⟨hX, hY, hZ⟩ := h
  have h1 : stepCommand c t = .ok c := by
    cases t with
    | Field letters value =>
      have hX2 : letters ≠ "X" := fun hh => hX (by simp [Token.tagOf, hh])
      have hY2 : letters ≠ "Y" := fun hh => hY (by simp [Token.tagOf, hh])
      have hZ2 : letters ≠ "Z" := fun hh => hZ (by simp [Token.tagOf, hh])
      simp only [stepCommand]
      rw [if_neg hX2, if_neg hY2, if_neg hZ2]
    | Comment s => rfl
  refine ⟨h1, ?_, ?_⟩
  · intro hr
    simp [processToken, h1, hr]
  · intro hr
    simp [processToken, h1, hr]

/-- Witness for C8 (amended): a comment token on an unready fresh Move
leaves state and trace untouched. -/
theorem c8_ignored_token_semantics_witness :
    processToken 0 0 (Commands.new_move, []) (Token.Comment "setup") =
      .ok (Commands.new_move, []) :=
  (c8_ignored_token_semantics 0 0 Commands.new_move [] (Token.Comment "setup")
    ⟨by simp [Token.tagOf], by simp [Token.tagOf], by simp [Token.tagOf]⟩).2.1
    rfl

/-- `set_x` never turns a non-Reset accumulator into Reset. -/
theorem set_x_ne_reset (c : Commands) (v : Nat) (h : c ≠ .Reset) :
    c.set_x v ≠ .Reset := by
  cases c <;> simp [Commands.set_x] <;> exact h rfl

/-- `set_y` never turns a non-Reset accumulator into Reset. -/
theorem set_y_ne_reset (c : Commands) (v : Nat) (h : c ≠ .Reset) :
    c.set_y v ≠ .Reset := by
  cases c <;> simp [Commands.set_y] <;> exact h rfl

/-- The token-update step started from a non-Reset accumulator never
produces Reset: coordinate tokens keep the variant and tool-state tokens
install `new_draw`/`new_move`. -/
theorem stepCommand_ne_reset (c : Commands) (t : Token) (c2 : Commands)
    (hc : c ≠ .Reset) (h : stepCommand c t = .ok c2) : c2 ≠ .Reset := by
  cases t with
  | Comment s =>
    injection h with h2
    subst h2; exact hc
  | Field letters value =>
    cases value with
    | Float q =>
      simp only [stepCommand] at h
      split at h
      · injection h with h2; subst h2; exact set_x_ne_reset c _ hc
      · split at h
        · injection h with h2; subst h2; exact set_y_ne_reset c _ hc
        · split at h
          · injection h with h2; subst h2; exact hc
          · injection h with h2; subst h2; exact hc
    | Integer z =>
      simp only [stepCommand] at h
      split at h
      · injection h with h2; subst h2; exact hc
      · split at h
        · injection h with h2; subst h2; exact hc
        · split at h
          · split at h
            · injection h with h2; subst h2; decide
            · split at h
              · injection h with h2; subst h2; decide
              · exact absurd h (by simp)
          · injection h with h2; subst h2; exact hc
    | Str s =>
      simp only [stepCommand] at h
      split at h
      · injection h with h2; subst h2; exact hc
      · split at h
        · injection h with h2; subst h2; exact hc
        · split at h
          · injection h with h2; subst h2; exact hc
          · injection h with h2; subst h2; exact hc

/-- Every bus call of a transaction on a non-Reset command satisfies the
loop invariant: it is a channel-level operation and any listener addressing
targets the XY sub-address. -/
theorem transact_mem_busops (o w : ℤ) (c : Commands)
    (hc : c ≠ Commands.Reset) (op : BusOp)
    (hop : op ∈ (transact o w c).1) : busInv op := by
  cases c with
  | Reset => exact absurd rfl hc
  | Move opts =>
    obtain ⟨x, y⟩ := opts
    cases x with
    | none => simp [transact] at hop
    | some xv =>
      cases y with
      | none => simp [transact] at hop
      | some yv =>
        simp only [transact, Plotter.write] at hop
        split at hop <;>
          (simp only [List.mem_cons, List.mem_singleton, List.not_mem_nil,
              or_false] at hop) <;>
          rcases hop with rfl | rfl | rfl | rfl | rfl <;>
          refine ⟨by simp, by simp, ?_⟩ <;>
          (intro a sa hl) <;> first
          | (injection hl with h1 h2; exact h2.symm)
          | simp at hl
  | Draw opts =>
    obtain ⟨x, y⟩ := opts
    cases x with
    | none => simp [transact] at hop
    | some xv =>
      cases y with
      | none => simp [transact] at hop
      | some yv =>
        simp only [transact, Plotter.write] at hop
        split at hop <;>
          (simp only [List.mem_cons, List.mem_singleton, List.not_mem_nil,
              or_false] at hop) <;>
          rcases hop with rfl | rfl | rfl | rfl | rfl <;>
          refine ⟨by simp, by simp, ?_⟩ <;>
          (intro a sa hl) <;> first
          | (injection hl with h1 h2; exact h2.symm)
          | simp at hl

/-- `processToken` when the accumulator update panics. -/
theorem processToken_err (o w : ℤ) (st : Commands × List BusOp) (t : Token)
    (msg : String) (h : stepCommand st.1 t = .error msg) :
    processToken o w st t = .error (st.2, msg) := by
  unfold processToken
  rw [h]

/-- `processToken` when the updated accumulator is ready: it transacts. -/
theorem processToken_ready (o w : ℤ) (st : Commands × List BusOp) (t : Token)
    (c : Commands) (h : stepCommand st.1 t = .ok c)
    (hr : c.is_ready = true) :
    processToken o w st t =
      (match transact o w c with
       | (ops, none) => .ok (c, st.2 ++ ops)
       | (ops, some msg) => .error (st.2 ++ ops, msg)) := by
  unfold processToken
  rw [h]
  simp [hr]

/-- `processToken` when the updated accumulator is not ready: no bus call. -/
theorem processToken_unready (o w : ℤ) (st : Commands × List BusOp)
    (t : Token) (c : Commands) (h : stepCommand st.1 t = .ok c)
    (hr : c.is_ready = false) :
    processToken o w st t = .ok (c, st.2) := by
  unfold processToken
  rw [h]
  simp [hr]

/-- Bind on an `Except` error short-circuits. -/
theorem exceptBindErr {α β γ : Type} (e : α) (f : β → Except α γ) :
    (Except.error e >>= f) = Except.error e := rfl

/-- Bind on an `Except` success applies the continuation. -/
theorem exceptBindOk {α β γ : Type} (b : β) (f : β → Except α γ) :
    (Except.ok b >>= f) = f b := rfl

/-- One loop iteration preserves the invariant: starting from a non-Reset
accumulator and a trace of calls satisfying `P`, the new accumulator is
non-Reset and the grown trace still satisfies `P`, provided transactions on
non-Reset commands only emit `P`-calls; on a panic the partial trace also
satisfies `P`. -/
theorem processToken_inv (o w : ℤ) (P : BusOp → Prop)
    (hstep : ∀ c : Commands, c ≠ .Reset → ∀ op ∈ (transact o w c).1, P op)
    (st : Commands × List BusOp) (t : Token)
    (h1 : st.1 ≠ .Reset) (h2 : ∀ op ∈ st.2, P op) :
    (∀ st2, processToken o w st t = .ok st2 →
      st2.1 ≠ .Reset ∧ ∀ op ∈ st2.2, P op) ∧
    (∀ tr m, processToken o w st t = .error (tr, m) → ∀ op ∈ tr, P op) := by
  cases hs : stepCommand st.1 t with
  | error msg =>
    rw [processToken_err o w st t msg hs]
    constructor
    · intro st2 h
      exact Except.noConfusion h
    · intro tr m h
      injection h with h3
      cases h3
      exact h2
  | ok c =>
    have hc : c ≠ .Reset := stepCommand_ne_reset st.1 t c h1 hs
    cases hr : c.is_ready with
    | false =>
      rw [processToken_unready o w st t c hs hr]
      constructor
      · intro st2 h
        injection h with h3
        cases h3
        exact ⟨hc, h2⟩
      · intro tr m h
        exact Except.noConfusion h
    | true =>
      rw [processToken_ready o w st t c hs hr]
      cases ht : transact o w c with
      | mk ops err =>
        have hops : ∀ op ∈ ops, P op := by
          intro op hop
          exact hstep c hc op (by rw [ht]; exact hop)
        have happ : ∀ op ∈ st.2 ++ ops, P op := by
          intro op hop
          rcases List.mem_append.mp hop with hop | hop
          · exact h2 op hop
          · exact hops op hop
        cases err with
        | none =>
          constructor
          · intro st2 h
            injection h with h3
            cases h3
            exact ⟨hc, happ⟩
          · intro tr m h
            exact Except.noConfusion h
        | some msg =>
          constructor
          · intro st2 h
            exact Except.noConfusion h
          · intro tr m h
            injection h with h3
            cases h3
            exact happ

/-- The invariant of `processToken_inv` carries over the whole token loop,
whether it completes or aborts partway. -/
theorem foldPlot_inv (o w : ℤ) (P : BusOp → Prop)
    (hstep : ∀ c : Commands, c ≠ .Reset → ∀ op ∈ (transact o w c).1, P op)
    (toks : List Token) :
    ∀ st : Commands × List BusOp, st.1 ≠ .Reset → (∀ op ∈ st.2, P op) →
      (∀ c tr, toks.foldlM (processToken o w) st = .ok (c, tr) →
        c ≠ .Reset ∧ ∀ op ∈ tr, P op) ∧
      (∀ tr m, toks.foldlM (processToken o w) st = .error (tr, m) →
        ∀ op ∈ tr, P op) := by
  induction toks with
  | nil =>
    intro st h1 h2
    constructor
    · intro c tr h
      injection h with h3
      subst h3
      exact ⟨h1, h2⟩
    · intro tr m h
      exact Except.noConfusion h
  | cons t ts ih =>
    intro st h1 h2
    rw [List.foldlM_cons]
    have hp := processToken_inv o w P hstep st t h1 h2
    cases hq : processToken o w st t with
    | error e =>
      rw [exceptBindErr]
      obtain ⟨tr0, m0⟩ := e
      constructor
      · intro c tr h
        exact Except.noConfusion h
      · intro tr m h
        injection h with h3
        cases h3
        exact hp.2 tr0 m0 hq
    | ok st2 =>
      rw [exceptBindOk]
      obtain ⟨hne, htr⟩ := hp.1 st2 hq
      exact ih st2 hne htr

/-- The invariant instantiated at the actual loop entry
(`Commands::new_move`, empty trace). -/
theorem plotRun_inv (o w : ℤ) (P : BusOp → Prop)
    (hstep : ∀ c : Commands, c ≠ .Reset → ∀ op ∈ (transact o w c).1, P op)
    (toks : List Token) :
    (∀ c tr, plotRun o w toks = .ok (c, tr) →
      c ≠ .Reset ∧ ∀ op ∈ tr, P op) ∧
    (∀ tr m, plotRun o w toks = .error (tr, m) → ∀ op ∈ tr, P op) :=
  foldPlot_inv o w P hstep toks (Commands.new_move, []) (by decide)
    (by intro op hop; cases hop)

/-- Every bus call in the trace of `plot`'s body (file read, parse, token
loop) satisfies `busInv`: in particular the body never opens or closes the
adapter handle. -/
theorem plotBody_busInv (e : Env) : ∀ op ∈ (plotBody e).1, busInv op := by
  unfold plotBody
  have H := plotRun_inv e.chanOpenRet e.writeRet busInv
    (fun c hc op hop =>
      transact_mem_busops e.chanOpenRet e.writeRet c hc op hop)
    e.tokens
  split
  · intro op hop; cases hop
  · split
    · intro op hop; cases hop
    · cases hpr : plotRun e.chanOpenRet e.writeRet e.tokens with
      | ok p =>
        obtain ⟨c, tr⟩ := p
        exact fun op hop => (H.1 c tr hpr).2 op hop
      | error q =>
        obtain ⟨tr, m⟩ := q
        exact fun op hop => H.2 tr m hpr op hop

/-- Claim C4: once construction has succeeded (valid canvas, adapter open
returning 0), the adapter handle is released exactly once on every exit
path of the run — whether the token loop completes, panics on a bad tool
state, a failed channel open, or an unreadable/unparsable file — and it
was acquired exactly once; the drop-based release appears once and only
once in the trace. -/
theorem c4_adapter_released_once (e : Env) (hh : e.height ≤ 997)
    (hw : e.width ≤ 447) (ha : e.adapterOpenRet = 0) :
    (runMain e).1.count BusOp.driverClose = 1 ∧
    (runMain e).1.count BusOp.driverOpen = 1 := by
  have hb : ¬ (e.height > 997 ∨ e.width > 447) := by omega
  have key := plotBody_busInv e
  have hdc : (plotBody e).1.count BusOp.driverClose = 0 :=
    List.count_eq_zero.mpr (fun hmem => (key _ hmem).1 rfl)
  have hdo : (plotBody e).1.count BusOp.driverOpen = 0 :=
    List.count_eq_zero.mpr (fun hmem => (key _ hmem).2.1 rfl)
  unfold runMain
  rw [if_neg hb, if_neg (by simp [ha])]
  constructor
  · simp [List.count_cons, List.count_append, hdc]
  · simp [List.count_cons, List.count_append, hdo]

/-- Witness for C4: a benign environment, and one whose token stream aborts
with an unrecognised tool command partway through — the handle is released
exactly once in both. -/
theorem c4_adapter_released_once_witness :
    ((runMain ⟨0, true, true, 0, 0, [], 100, 100⟩).1.count
        BusOp.driverClose = 1 ∧
      (runMain ⟨0, true, true, 0, 0, [], 100, 100⟩).1.count
        BusOp.driverOpen = 1) ∧
    ((runMain ⟨0, true, true, 0, 0,
        [.Field "Z" (.Integer 9)], 100, 100⟩).1.count
        BusOp.driverClose = 1 ∧
      (runMain ⟨0, true, true, 0, 0,
        [.Field "Z" (.Integer 9)], 100, 100⟩).1.count
        BusOp.driverOpen = 1) :=
  ⟨c4_adapter_released_once _ (by decide) (by decide) rfl,
   c4_adapter_released_once _ (by decide) (by decide) rfl⟩

/-- Claim C10: whatever the token stream and return codes, the accumulator
is never the Reset variant (the loop starts with a Move and tool-state
tokens only install Move or Draw), so the Reset transaction branch is
unreachable: every listener addressing in the trace — of a completed or an
aborted run — uses the XY sub-address 1, never the reset sub-address 7. -/
theorem c10_reset_unreachable (o w : ℤ) (toks : List Token) :
    (∀ c tr, plotRun o w toks = .ok (c, tr) →
      c ≠ Commands.Reset ∧
        ∀ a sa, BusOp.listen a sa ∈ tr → sa = PLOTTER_SA_XY) ∧
    (∀ tr m, plotRun o w toks = .error (tr, m) →
      ∀ a sa, BusOp.listen a sa ∈ tr → sa = PLOTTER_SA_XY) := by
  have H := plotRun_inv o w busInv
    (fun c hc op hop => transact_mem_busops o w c hc op hop) toks
  constructor
  · intro c tr h
    obtain ⟨hc, hP⟩ := H.1 c tr h
    exact ⟨hc, fun a sa hm => (hP _ hm).2.2 a sa rfl⟩
  · intro tr m h
    exact fun a sa hm => ((H.2 tr m h) _ hm).2.2 a sa rfl

/-- Witness for C10: on the concrete polyline stream the final accumulator
is not Reset and the first listener addressing of the trace targets
sub-address 1. -/
theorem c10_reset_unreachable_witness :
    Commands.Move ⟨some 2, some 2⟩ ≠ Commands.Reset :=
  ((c10_reset_unreachable 0 0 c1toks).1 (Commands.Move ⟨some 2, some 2⟩)
    (traceOf (plotRun 0 0 c1toks)) (by rfl)).1

/-- On an `X` coordinate token the loop update is exactly `set_x` of the
truncated value. -/
theorem stepCommandD_X (c : Commands) (q : ℚ) :
    stepCommandD c (.Field "X" (.Float q)) = c.set_x (rustAsU32 q) := rfl

/-- On a `Y` coordinate token the loop update is exactly `set_y` of the
truncated value. -/
theorem stepCommandD_Y (c : Commands) (q : ℚ) :
    stepCommandD c (.Field "Y" (.Float q)) = c.set_y (rustAsU32 q) := rfl

/-- `set_x` on a Move/Draw accumulator populates the x field. -/
theorem mkMD_set_x (b : Bool) (ox oy : Option Nat) (v : Nat) :
    (mkMD b ox oy).set_x v = mkMD b (some v) oy := by
  cases b <;> rfl

/-- `set_y` on a Move/Draw accumulator populates the y field. -/
theorem mkMD_set_y (b : Bool) (ox oy : Option Nat) (v : Nat) :
    (mkMD b ox oy).set_y v = mkMD b ox (some v) := by
  cases b <;> rfl

/-- Readiness of a Move/Draw accumulator is exactly both fields being
populated. -/
theorem is_ready_mkMD (b : Bool) (ox oy : Option Nat) :
    (mkMD b ox oy).is_ready = (ox.isSome && oy.isSome) := by
  cases b <;> rfl

/-- An `X` field is not a `Y` coordinate token. -/
theorem not_isYTok_X (q : ℚ) : ¬ isYTok (.Field "X" (.Float q)) := by
  rintro ⟨q2, h⟩
  injection h with h1 h2
  exact absurd h1 (by decide)

/-- A `Y` field is not an `X` coordinate token. -/
theorem not_isXTok_Y (q : ℚ) : ¬ isXTok (.Field "Y" (.Float q)) := by
  rintro ⟨q2, h⟩
  injection h with h1 h2
  exact absurd h1 (by decide)

/-- Folding any sequence of coordinate tokens over a Move/Draw accumulator
keeps the variant and populates each field exactly when it was already
populated or the sequence contains the corresponding coordinate token. -/
theorem foldXY_char (b : Bool) (toks : List Token) :
    (∀ t ∈ toks, coordTok t) → ∀ ox oy : Option Nat,
      ∃ ox2 oy2,
        toks.foldl stepCommandD (mkMD b ox oy) = mkMD b ox2 oy2 ∧
        (ox2.isSome = true ↔
          (ox.isSome = true ∨ ∃ t ∈ toks, isXTok t)) ∧
        (oy2.isSome = true ↔
          (oy.isSome = true ∨ ∃ t ∈ toks, isYTok t)) := by
  induction toks with
  | nil =>
    intro h ox oy
    exact ⟨ox, oy, rfl, by simp, by simp⟩
  | cons t ts ih =>
    intro h ox oy
    have ht := h t (List.mem_cons_self t ts)
    have hts : ∀ t2 ∈ ts, coordTok t2 :=
      fun t2 h2 => h t2 (List.mem_cons_of_mem _ h2)
    rcases ht with ⟨q, rfl⟩ | ⟨q, rfl⟩
    · rw [List.foldl_cons, stepCommandD_X, mkMD_set_x]
      obtain ⟨ox2, oy2, heq, hx, hy⟩ := ih hts (some (rustAsU32 q)) oy
      refine ⟨ox2, oy2, heq, ?_, ?_⟩
      · constructor
        · intro _
          exact Or.inr ⟨_, List.mem_cons_self _ _, ⟨q, rfl⟩⟩
        · intro _
          rw [hx]
          exact Or.inl rfl
      · rw [hy]
        constructor
        · rintro (h2 | ⟨t2, ht2, hyt⟩)
          · exact Or.inl h2
          · exact Or.inr ⟨t2, List.mem_cons_of_mem _ ht2, hyt⟩
        · rintro (h2 | ⟨t2, ht2, hyt⟩)
          · exact Or.inl h2
          · rcases List.mem_cons.mp ht2 with rfl | ht3
            · exact absurd hyt (not_isYTok_X q)
            · exact Or.inr ⟨t2, ht3, hyt⟩
    · rw [List.foldl_cons, stepCommandD_Y, mkMD_set_y]
      obtain ⟨ox2, oy2, heq, hx, hy⟩ := ih hts ox (some (rustAsU32 q))
      refine ⟨ox2, oy2, heq, ?_, ?_⟩
      · rw [hx]
        constructor
        · rintro (h2 | ⟨t2, ht2, hxt⟩)
          · exact Or.inl h2
          · exact Or.inr ⟨t2, List.mem_cons_of_mem _ ht2, hxt⟩
        · rintro (h2 | ⟨t2, ht2, hxt⟩)
          · exact Or.inl h2
          · rcases List.mem_cons.mp ht2 with rfl | ht3
            · exact absurd hxt (not_isXTok_Y q)
            · exact Or.inr ⟨t2, ht3, hxt⟩
      · constructor
        · intro _
          exact Or.inr ⟨_, List.mem_cons_self _ _, ⟨q, rfl⟩⟩
        · intro _
          rw [hy]
          exact Or.inl rfl

/-- Claim C6: `is_ready()` is true iff the accumulator is Reset or a
Move/Draw with both coordinates populated; coordinate tokens never make a
ready accumulator unready (readiness persists until a tool-state token
replaces the accumulator); and for any sequence of X/Y coordinate tokens
applied to a fresh Move or Draw, the result is ready iff the sequence
contains at least one X and at least one Y token (in either order). -/
theorem c6_is_ready_characterization :
    (∀ c : Commands, c.is_ready = true ↔
      (c = Commands.Reset ∨ ∃ x y, c = Commands.Move ⟨some x, some y⟩ ∨
        c = Commands.Draw ⟨some x, some y⟩)) ∧
    (∀ (c : Commands) (t : Token), coordTok t → c.is_ready = true →
      (stepCommandD c t).is_ready = true) ∧
    (∀ (c0 : Commands) (toks : List Token),
      (c0 = Commands.new_move ∨ c0 = Commands.new_draw) →
      (∀ t ∈ toks, coordTok t) →
      ((toks.foldl stepCommandD c0).is_ready = true ↔
        ((∃ t ∈ toks, isXTok t) ∧ (∃ t ∈ toks, isYTok t)))) := by
  refine ⟨?_, ?_, ?_⟩
  · intro c
    rcases c with ⟨x, y⟩ | ⟨x, y⟩ | _
    · cases x <;> cases y <;> simp [Commands.is_ready]
    · cases x <;> cases y <;> simp [Commands.is_ready]
    · simp [Commands.is_ready]
  · intro c t hct hr
    rcases hct with ⟨q, rfl⟩ | ⟨q, rfl⟩
    · rw [stepCommandD_X]
      rcases c with ⟨x, y⟩ | ⟨x, y⟩ | _
      · simp only [Commands.set_x, Commands.is_ready,
          Bool.and_eq_true] at hr ⊢
        exact ⟨rfl, hr.2⟩
      · simp only [Commands.set_x, Commands.is_ready,
          Bool.and_eq_true] at hr ⊢
        exact ⟨rfl, hr.2⟩
      · exact hr
    · rw [stepCommandD_Y]
      rcases c with ⟨x, y⟩ | ⟨x, y⟩ | _
      · simp only [Commands.set_y, Commands.is_ready,
          Bool.and_eq_true] at hr ⊢
        exact ⟨hr.1, rfl⟩
      · simp only [Commands.set_y, Commands.is_ready,
          Bool.and_eq_true] at hr ⊢
        exact ⟨hr.1, rfl⟩
      · exact hr
  · intro c0 toks hc0 hall
    rcases hc0 with rfl | rfl
    · rw [show Commands.new_move = mkMD true none none from rfl]
      obtain ⟨ox2, oy2, heq, hx, hy⟩ := foldXY_char true toks hall none none
      rw [heq, is_ready_mkMD, Bool.and_eq_true, hx, hy]
      simp
    · rw [show Commands.new_draw = mkMD false none none from rfl]
      obtain ⟨ox2, oy2, heq, hx, hy⟩ := foldXY_char false toks hall none none
      rw [heq, is_ready_mkMD, Bool.and_eq_true, hx, hy]
      simp

/-- Witness for C6: a fresh Move becomes ready after `X(1.0)` then
`Y(2.0)`, and a ready accumulator stays ready across a further coordinate
token. -/
theorem c6_is_ready_characterization_witness :
    ([Token.Field "X" (GValue.Float 1),
        Token.Field "Y" (GValue.Float 2)].foldl stepCommandD
        Commands.new_move).is_ready = true ∧
    (stepCommandD (Commands.Move ⟨some 3, some 4⟩)
        (Token.Field "X" (GValue.Float 9))).is_ready = true := by
  constructor
  · refine (c6_is_ready_characterization.2.2 Commands.new_move _
      (Or.inl rfl) ?_).mpr
      ⟨⟨_, List.mem_cons_self _ _, ⟨1, rfl⟩⟩,
       ⟨_, List.mem_cons_of_mem _ (List.mem_cons_self _ _), ⟨2, rfl⟩⟩⟩
    intro t ht
    rcases List.mem_cons.mp ht with rfl | ht2
    · exact Or.inl ⟨1, rfl⟩
    · rcases List.mem_cons.mp ht2 with rfl | ht3
      · exact Or.inr ⟨2, rfl⟩
      · cases ht3
  · exact c6_is_ready_characterization.2.1 _ _ (Or.inl ⟨9, rfl⟩) rfl
